import Mathlib

/-!
Shallow embedding of the interrupt-controller abstraction and interrupt
routing/dispatch layer of the arc kernel: src/kernel/arc/intr/ic.c and
src/kernel/arc/intr/route.c.

Hardware side effects (backend calls such as pic_ack, apic_ack, pic_mask,
pic_unmask, ioapic_route, ioapic_mask, lapic_ipi, ...) are modelled as
values recorded in result structures, in the order the C code issues them.
A call to panic(), which halts and never returns, is modelled with
Except.error carrying the panic message. The routing table
(list_t intr_handlers[INTERRUPTS]) is modelled as a function from vector
numbers to lists of handlers; a handler (a C function pointer, compared
only by equality) is modelled as a Nat.
-/

namespace Arc

/-- Modelled from the spec: the interrupt vector-space layout constants from
the arc/intr headers, which are not under src/. Per the spec, the vector
space of size INTERRUPTS is partitioned into CPU fault vectors 0..31
(FAULT31 = 31), legacy IRQ vectors IRQ0..IRQ15 (8259 parity) extended to
IRQ0..IRQ23 (APIC parity, so IRQS = 24 IRQ lines), a spurious vector, and
remaining software/IPI vectors. -/
def FAULT31 : Nat := 31

/-- Modelled from the spec: the first legacy IRQ vector, directly after the
32 CPU fault vectors. -/
def IRQ0 : Nat := 32

/-- Modelled from the spec: the last 8259-parity legacy IRQ vector. -/
def IRQ15 : Nat := 47

/-- Modelled from the spec: the last APIC-parity legacy IRQ vector. -/
def IRQ23 : Nat := 55

/-- Modelled from the spec: the number of APIC-parity IRQ lines. -/
def IRQS : Nat := 24

/-- Modelled from the spec: the spurious vector, a vector outside the fault
and legacy IRQ ranges (its exact value is not fixed by src/). -/
def SPURIOUS : Nat := 255

/-- Modelled from the spec: size of the interrupt vector enumeration. -/
def INTERRUPTS : Nat := 256

/-- A registered interrupt handler (a C function pointer, identified up to
equality). -/
abbrev Handler := Nat

/-- The routing table: for each vector, its handler chain in insertion
order (list_t intr_handlers[INTERRUPTS], each chain a linked list of
intr_handler_pair_t nodes). -/
abbrev HandlerTable := Nat → List Handler

/-- The execution topology (smp_mode from arc/smp/mode.h): uniprocessor or
multiprocessor. -/
inductive SmpMode where
  | MODE_UP : SmpMode
  | MODE_SMP : SmpMode
deriving DecidableEq, Repr

/-- The interrupt-controller topology type recorded by ic.c (ic_type). -/
inductive ICType where
  | IC_TYPE_NONE : ICType
  | IC_TYPE_PIC : ICType
  | IC_TYPE_LAPIC : ICType
  | IC_TYPE_LX2APIC : ICType
deriving DecidableEq, Repr

/-- The CPU state pushed on interrupt entry (intr_state_t); only the vector
id is relevant to this layer, handlers receive the whole state by
pointer. -/
structure IntrState where
  id : Nat
deriving DecidableEq, Repr

/-- A logical IRQ tuple (irq_tuple_t): the IRQ number plus the
controller-specific routing attributes, which this layer passes through
to the I/O APIC driver without inspecting them. -/
structure IrqTuple where
  irq : Nat
  attrs : Nat
deriving DecidableEq, Repr

/-- An I/O APIC registry descriptor (the fields of ioapic_t that route.c
reads: the first IRQ it serves and how many IRQs it serves). -/
structure Ioapic where
  irq_base : Nat
  irqs : Nat
deriving DecidableEq, Repr

/-- A backend acknowledgment call, as issued by intr_dispatch or ic_ack. -/
inductive AckCall where
  | apic_ack : AckCall
  | pic_ack (irq : Nat) : AckCall
  | lapic_ack : AckCall
  | lx2apic_ack : AckCall
deriving DecidableEq, Repr

/-- A backend initialization call, as issued by ic_bsp_init or
ic_ap_init. -/
inductive InitCall where
  | pic_init : InitCall
  | lapic_mmio_init (base : Nat) : InitCall
  | lapic_init : InitCall
  | lx2apic_init : InitCall
deriving DecidableEq, Repr

/-- An event of ic_bsp_init: a backend call, or the write ic_type = type. -/
inductive BspEvent where
  | call (c : InitCall) : BspEvent
  | set_type (t : ICType) : BspEvent
deriving DecidableEq, Repr

/-- A backend IPI call, as issued by ic_ipi_init or ic_ipi_startup. -/
inductive IpiCall where
  | lapic_ipi (id vec payload : Nat) : IpiCall
  | lx2apic_ipi (id vec payload : Nat) : IpiCall
deriving DecidableEq, Repr

/-- ic.c ic_bsp_init: branch on the requested type, initialize the matching
backend (nothing at all for LX2APIC, panic on an unrecognized type), then
record the type in ic_type. The result is the ordered event trace; panic
halts before the ic_type write. -/
def ic_bsp_init (t : ICType) (extra : Nat) : Except String (List BspEvent) :=
  match t with
  | ICType.IC_TYPE_PIC =>
      Except.ok [BspEvent.call InitCall.pic_init, BspEvent.set_type ICType.IC_TYPE_PIC]
  | ICType.IC_TYPE_LAPIC =>
      Except.ok [BspEvent.call (InitCall.lapic_mmio_init extra),
                 BspEvent.set_type ICType.IC_TYPE_LAPIC]
  | ICType.IC_TYPE_LX2APIC =>
      Except.ok [BspEvent.set_type ICType.IC_TYPE_LX2APIC]
  | ICType.IC_TYPE_NONE => Except.error "unknown ic type"

/-- ic.c ic_ap_init: per-CPU init for the recorded topology; the switch has
no case for IC_TYPE_PIC, so PIC is a no-op. -/
def ic_ap_init (t : ICType) : Except String (List InitCall) :=
  match t with
  | ICType.IC_TYPE_NONE => Except.error "no IC initialised"
  | ICType.IC_TYPE_PIC => Except.ok []
  | ICType.IC_TYPE_LAPIC => Except.ok [InitCall.lapic_init]
  | ICType.IC_TYPE_LX2APIC => Except.ok [InitCall.lx2apic_init]

/-- ic.c ic_ack: acknowledge via the recorded topology's backend. Note that
the PIC case passes the raw vector id to pic_ack, with no IRQ0 shift. -/
def ic_ack (t : ICType) (id : Nat) : Except String (List AckCall) :=
  match t with
  | ICType.IC_TYPE_NONE => Except.error "no IC initialised"
  | ICType.IC_TYPE_PIC =>
      Except.ok (if IRQ0 ≤ id ∧ id ≤ IRQ15 then [AckCall.pic_ack id] else [])
  | ICType.IC_TYPE_LAPIC =>
      Except.ok (if IRQ0 ≤ id ∧ id ≤ IRQ23 then [AckCall.lapic_ack] else [])
  | ICType.IC_TYPE_LX2APIC =>
      Except.ok (if IRQ0 ≤ id ∧ id ≤ IRQ23 then [AckCall.lx2apic_ack] else [])

/-- ic.c ic_ipi_init: send the fixed INIT IPI (vector 0x05, payload 0x00)
via the recorded topology's backend; fatal for NONE and PIC. -/
def ic_ipi_init (t : ICType) (id : Nat) : Except String (List IpiCall) :=
  match t with
  | ICType.IC_TYPE_NONE => Except.error "no IC initialised"
  | ICType.IC_TYPE_PIC => Except.error "8259 PICs do not support IPIs"
  | ICType.IC_TYPE_LAPIC => Except.ok [IpiCall.lapic_ipi id 5 0]
  | ICType.IC_TYPE_LX2APIC => Except.ok [IpiCall.lx2apic_ipi id 5 0]

/-- ic.c ic_ipi_startup: send the STARTUP IPI (vector 0x06, payload the
trampoline page) via the recorded topology's backend; fatal for NONE and
PIC. -/
def ic_ipi_startup (t : ICType) (id : Nat) (trampoline_addr : Nat) :
    Except String (List IpiCall) :=
  match t with
  | ICType.IC_TYPE_NONE => Except.error "no IC initialised"
  | ICType.IC_TYPE_PIC => Except.error "8259 PICs do not support IPIs"
  | ICType.IC_TYPE_LAPIC => Except.ok [IpiCall.lapic_ipi id 6 trampoline_addr]
  | ICType.IC_TYPE_LX2APIC => Except.ok [IpiCall.lx2apic_ipi id 6 trampoline_addr]

/-- route.c intr_dispatch, acknowledgment step: in SMP mode, apic_ack() for
any vector above the faults that is not the spurious vector; in UP mode,
pic_ack(intr - IRQ0) for vectors in the legacy PIC IRQ range. -/
def dispatchAcks (mode : SmpMode) (intr : Nat) : List AckCall :=
  match mode with
  | SmpMode.MODE_SMP =>
      if FAULT31 < intr ∧ intr ≠ SPURIOUS then [AckCall.apic_ack] else []
  | SmpMode.MODE_UP =>
      if IRQ0 ≤ intr ∧ intr ≤ IRQ15 then [AckCall.pic_ack (intr - IRQ0)] else []

/-- route.c intr_dispatch: acknowledge per the acknowledgment step, then
under the read lock panic if the vector's chain is empty, else call every
handler in chain order, each with the same interrupt state. The result is
the list of acknowledgment calls paired with either the panic or the
ordered list of handler invocations (handler, state passed to it). -/
def intr_dispatch (mode : SmpMode) (table : HandlerTable) (state : IntrState) :
    List AckCall × Except String (List (Handler × IntrState)) :=
  (dispatchAcks mode state.id,
   if (table state.id).isEmpty then
     Except.error "unhandled interrupt"
   else
     Except.ok ((table state.id).map (fun h => (h, state))))

/-- route.c _intr_route_intr: allocate a handler pair (modelled by the
alloc flag: malloc returning NULL gives false and leaves the table alone)
and append it at the tail of the vector's chain. -/
def _intr_route_intr (alloc : Bool) (table : HandlerTable) (intr : Nat)
    (handler : Handler) : Bool × HandlerTable :=
  if alloc then
    (true, fun i => if i = intr then table i ++ [handler] else table i)
  else
    (false, table)

/-- route.c _intr_unroute_intr, chain level: remove the first node of the
chain whose handler equals the argument; no-op when none matches. -/
def eraseFirst (l : List Handler) (handler : Handler) : List Handler :=
  match l with
  | [] => []
  | x :: xs => if x = handler then xs else x :: eraseFirst xs handler

/-- route.c _intr_unroute_intr: apply the first-match removal to the
vector's chain in the table. -/
def _intr_unroute_intr (table : HandlerTable) (intr : Nat) (handler : Handler) :
    HandlerTable :=
  fun i => if i = intr then eraseFirst (table i) handler else table i

/-- route.c intr_route_intr (route_vector): take interrupts off and the
write lock, append the handler, release. The locks order no observable
effect in this sequential model. -/
def intr_route_intr (alloc : Bool) (table : HandlerTable) (intr : Nat)
    (handler : Handler) : Bool × HandlerTable :=
  _intr_route_intr alloc table intr handler

/-- route.c intr_unroute_intr (unroute_vector): take interrupts off and the
write lock, remove the first matching handler, release. -/
def intr_unroute_intr (table : HandlerTable) (intr : Nat) (handler : Handler) :
    HandlerTable :=
  _intr_unroute_intr table intr handler

/-- route.c's I/O APIC membership test: irq_first = irq_base,
irq_last = irq_base + irqs - 1, and the IRQ matches when
irq_first <= irq < irq_last. (irq_t is unsigned; for irqs >= 1 truncated
Nat subtraction agrees with the C expression.) -/
def ioapicMatches (apic : Ioapic) (irq : Nat) : Bool :=
  decide (apic.irq_base ≤ irq) && decide (irq < apic.irq_base + apic.irqs - 1)

/-- route.c intr_route_irq, SMP branch: scan the I/O APIC registry in order
and return the first descriptor whose range test matches. -/
def findIoapic (l : List Ioapic) (irq : Nat) : Option Ioapic :=
  match l with
  | [] => none
  | apic :: rest => if ioapicMatches apic irq then some apic else findIoapic rest irq

/-- Result of intr_route_irq: the return value, the table afterwards, and
the hardware calls issued (PIC lines unmasked; I/O APICs programmed with
(apic, tuple, vector)). -/
structure RouteIrqResult where
  ok : Bool
  table : HandlerTable
  pic_unmasks : List Nat
  ioapic_routes : List (Ioapic × IrqTuple × Nat)

/-- route.c intr_route_irq: under interrupts-off and the write lock, in UP
mode an IRQ below 16 maps to vector irq + IRQ0, is routed, and the PIC
line is unmasked (unconditionally, even when the allocation failed); in
SMP mode the vector is (irq mod IRQS) + IRQ0 and the first I/O APIC whose
range test matches is programmed after the table insertion. Any other
case returns false with no effect. -/
def intr_route_irq (mode : SmpMode) (ioapics : List Ioapic) (alloc : Bool)
    (table : HandlerTable) (tuple : IrqTuple) (handler : Handler) : RouteIrqResult :=
  match mode with
  | SmpMode.MODE_UP =>
      if tuple.irq < 16 then
        let intr := tuple.irq + IRQ0
        let r := _intr_route_intr alloc table intr handler
        { ok := r.1, table := r.2, pic_unmasks := [tuple.irq], ioapic_routes := [] }
      else
        { ok := false, table := table, pic_unmasks := [], ioapic_routes := [] }
  | SmpMode.MODE_SMP =>
      let intr := tuple.irq % IRQS + IRQ0
      match findIoapic ioapics tuple.irq with
      | some apic =>
          let r := _intr_route_intr alloc table intr handler
          { ok := r.1, table := r.2, pic_unmasks := [],
            ioapic_routes := [(apic, tuple, intr)] }
      | none =>
          { ok := false, table := table, pic_unmasks := [], ioapic_routes := [] }

/-- Result of intr_unroute_irq (which returns void): the table afterwards
and the hardware calls issued (PIC lines masked; I/O APIC routes masked
with (apic, tuple)). -/
structure UnrouteIrqResult where
  table : HandlerTable
  pic_masks : List Nat
  ioapic_masks : List (Ioapic × IrqTuple)

/-- route.c intr_unroute_irq: under interrupts-off and the write lock, in
UP mode an IRQ below 16 is unrouted first and the PIC line masked only if
the chain is then empty; in SMP mode every I/O APIC whose range test
matches is masked, then the handler is unrouted from vector
(irq mod IRQS) + IRQ0 unconditionally. -/
def intr_unroute_irq (mode : SmpMode) (ioapics : List Ioapic)
    (table : HandlerTable) (tuple : IrqTuple) (handler : Handler) : UnrouteIrqResult :=
  match mode with
  | SmpMode.MODE_UP =>
      if tuple.irq < 16 then
        let intr := tuple.irq + IRQ0
        let table2 := _intr_unroute_intr table intr handler
        { table := table2,
          pic_masks := if (table2 intr).isEmpty then [tuple.irq] else [],
          ioapic_masks := [] }
      else
        { table := table, pic_masks := [], ioapic_masks := [] }
  | SmpMode.MODE_SMP =>
      let intr := tuple.irq % IRQS + IRQ0
      { table := _intr_unroute_intr table intr handler,
        pic_masks := [],
        ioapic_masks :=
          (ioapics.filter (fun apic => ioapicMatches apic tuple.irq)).map
            (fun apic => (apic, tuple)) }

end Arc

namespace Arc

/-- Auxiliary: removing the handler just appended at the tail restores the
chain, provided the handler did not already occur in it. -/
theorem eraseFirst_append_not_mem (l : List Handler) (h : Handler) (hnot : h ∉ l) :
    eraseFirst (l ++ [h]) h = l := by
  induction l with
  | nil => simp [eraseFirst]
  | cons x xs ih =>
      simp only [List.mem_cons, not_or] at hnot
      have hx : ¬(x = h) := fun hxh => hnot.1 hxh.symm
      simp [eraseFirst, hx, ih hnot.2]

/-- C1: dispatching a vector whose handler chain is empty reaches the panic
path (once, as the single Except.error outcome) and invokes no handler;
dispatching a vector with a non-empty chain invokes every handler of the
chain in chain order, passing the same interrupt state to each, and does
not panic. -/
theorem intr_dispatch_empty_panics_nonempty_runs_all (mode : SmpMode)
    (table : HandlerTable) (state : IntrState) :
    (intr_dispatch mode table state).2 =
      (if table state.id = [] then Except.error "unhandled interrupt"
       else Except.ok ((table state.id).map (fun h => (h, state)))) := by
  cases hl : table state.id <;> simp [intr_dispatch, hl]

/-- C9: for every destination CPU and trampoline page, ic_ipi_init and
ic_ipi_startup panic when the topology is uninitialized or PIC, and under
the LocalAPIC or x2APIC topology forward the IPI to the corresponding
backend without panicking. -/
theorem ic_ipi_fatal_on_none_and_pic (id trampoline : Nat) :
    ic_ipi_init ICType.IC_TYPE_NONE id = Except.error "no IC initialised"
  ∧ ic_ipi_startup ICType.IC_TYPE_NONE id trampoline = Except.error "no IC initialised"
  ∧ ic_ipi_init ICType.IC_TYPE_PIC id = Except.error "8259 PICs do not support IPIs"
  ∧ ic_ipi_startup ICType.IC_TYPE_PIC id trampoline =
      Except.error "8259 PICs do not support IPIs"
  ∧ ic_ipi_init ICType.IC_TYPE_LAPIC id = Except.ok [IpiCall.lapic_ipi id 5 0]
  ∧ ic_ipi_startup ICType.IC_TYPE_LAPIC id trampoline =
      Except.ok [IpiCall.lapic_ipi id 6 trampoline]
  ∧ ic_ipi_init ICType.IC_TYPE_LX2APIC id = Except.ok [IpiCall.lx2apic_ipi id 5 0]
  ∧ ic_ipi_startup ICType.IC_TYPE_LX2APIC id trampoline =
      Except.ok [IpiCall.lx2apic_ipi id 6 trampoline] :=
  ⟨rfl, rfl, rfl, rfl, rfl, rfl, rfl, rfl⟩

/-- C10: ic_bsp_init with the x2APIC type performs no backend call and only
records the type; with PIC or LocalAPIC it performs the backend init
before the ic_type write; the x2APIC backend init happens only in
ic_ap_init. -/
theorem ic_bsp_init_lx2apic_records_only (extra : Nat) :
    ic_bsp_init ICType.IC_TYPE_LX2APIC extra =
      Except.ok [BspEvent.set_type ICType.IC_TYPE_LX2APIC]
  ∧ ic_bsp_init ICType.IC_TYPE_PIC extra =
      Except.ok [BspEvent.call InitCall.pic_init, BspEvent.set_type ICType.IC_TYPE_PIC]
  ∧ ic_bsp_init ICType.IC_TYPE_LAPIC extra =
      Except.ok [BspEvent.call (InitCall.lapic_mmio_init extra),
                 BspEvent.set_type ICType.IC_TYPE_LAPIC]
  ∧ ic_bsp_init ICType.IC_TYPE_NONE extra = Except.error "unknown ic type"
  ∧ ic_ap_init ICType.IC_TYPE_LX2APIC = Except.ok [InitCall.lx2apic_init]
  ∧ ic_ap_init ICType.IC_TYPE_LAPIC = Except.ok [InitCall.lapic_init] :=
  ⟨rfl, rfl, rfl, rfl, rfl, rfl⟩

end Arc

namespace Arc

/-- C6: in uniprocessor mode an IRQ of 16 or more falls through the
irq < 16 test, so intr_route_irq returns false, keeps the table, and
issues no PIC unmask and no I/O APIC programming. -/
theorem intr_route_irq_up_high_irq_fails_no_effect (ioapics : List Ioapic)
    (alloc : Bool) (table : HandlerTable) (tuple : IrqTuple) (handler : Handler)
    (h : 16 ≤ tuple.irq) :
    intr_route_irq SmpMode.MODE_UP ioapics alloc table tuple handler =
      { ok := false, table := table, pic_unmasks := [], ioapic_routes := [] } := by
  unfold intr_route_irq
  rw [if_neg (by omega)]

/-- C6 witness: routing IRQ 20 in UP mode fails with no effect. -/
theorem intr_route_irq_up_high_irq_fails_no_effect_witness :
    16 ≤ (IrqTuple.mk 20 0).irq ∧
    intr_route_irq SmpMode.MODE_UP [] true (fun _ => []) (IrqTuple.mk 20 0) 7 =
      { ok := false, table := fun _ => [], pic_unmasks := [], ioapic_routes := [] } :=
  ⟨by decide,
   intr_route_irq_up_high_irq_fails_no_effect [] true (fun _ => []) (IrqTuple.mk 20 0) 7
     (by decide)⟩

/-- C8: in uniprocessor mode, for an IRQ below 16, intr_unroute_irq first
removes the first matching handler from the chain of vector irq + IRQ0
and then masks the PIC line exactly when the chain is empty after the
removal; a line whose chain still holds a handler is not masked. -/
theorem intr_unroute_irq_up_masks_iff_chain_empty (ioapics : List Ioapic)
    (table : HandlerTable) (tuple : IrqTuple) (handler : Handler)
    (h : tuple.irq < 16) :
    (intr_unroute_irq SmpMode.MODE_UP ioapics table tuple handler).table =
        _intr_unroute_intr table (tuple.irq + IRQ0) handler
  ∧ (intr_unroute_irq SmpMode.MODE_UP ioapics table tuple handler).pic_masks =
      (if eraseFirst (table (tuple.irq + IRQ0)) handler = [] then [tuple.irq] else [])
  ∧ (intr_unroute_irq SmpMode.MODE_UP ioapics table tuple handler).ioapic_masks = []
  ∧ (tuple.irq ∈ (intr_unroute_irq SmpMode.MODE_UP ioapics table tuple handler).pic_masks
      ↔ (intr_unroute_irq SmpMode.MODE_UP ioapics table tuple handler).table
          (tuple.irq + IRQ0) = []) := by
  have hred : intr_unroute_irq SmpMode.MODE_UP ioapics table tuple handler =
      { table := _intr_unroute_intr table (tuple.irq + IRQ0) handler,
        pic_masks :=
          if (_intr_unroute_intr table (tuple.irq + IRQ0) handler
              (tuple.irq + IRQ0)).isEmpty then [tuple.irq] else [],
        ioapic_masks := [] } := by
    unfold intr_unroute_irq
    rw [if_pos h]
  have hv : _intr_unroute_intr table (tuple.irq + IRQ0) handler (tuple.irq + IRQ0) =
      eraseFirst (table (tuple.irq + IRQ0)) handler := by
    simp [_intr_unroute_intr]
  rw [hred]
  refine ⟨rfl, ?_, rfl, ?_⟩
  · simp only [hv]
    cases hc : eraseFirst (table (tuple.irq + IRQ0)) handler <;> simp [hc]
  · simp only [hv]
    cases hc : eraseFirst (table (tuple.irq + IRQ0)) handler <;> simp [hc]

/-- C8 witness: unrouting handler 7 from IRQ 1 when the chain for vector 33
is [7, 9] leaves [9] and masks nothing; the mask-iff-empty equivalence is
instantiated concretely. -/
theorem intr_unroute_irq_up_masks_iff_chain_empty_witness :
    (IrqTuple.mk 1 0).irq < 16 ∧
    ((intr_unroute_irq SmpMode.MODE_UP [] (fun i => if i = 33 then [7, 9] else [])
        (IrqTuple.mk 1 0) 7).table =
          _intr_unroute_intr (fun i => if i = 33 then [7, 9] else [])
            ((IrqTuple.mk 1 0).irq + IRQ0) 7
      ∧ (intr_unroute_irq SmpMode.MODE_UP [] (fun i => if i = 33 then [7, 9] else [])
          (IrqTuple.mk 1 0) 7).pic_masks =
          (if eraseFirst ((fun i => if i = 33 then [7, 9] else ([] : List Handler))
              ((IrqTuple.mk 1 0).irq + IRQ0)) 7 = [] then [(IrqTuple.mk 1 0).irq] else [])
      ∧ (intr_unroute_irq SmpMode.MODE_UP [] (fun i => if i = 33 then [7, 9] else [])
          (IrqTuple.mk 1 0) 7).ioapic_masks = []
      ∧ ((IrqTuple.mk 1 0).irq ∈ (intr_unroute_irq SmpMode.MODE_UP []
            (fun i => if i = 33 then [7, 9] else []) (IrqTuple.mk 1 0) 7).pic_masks
          ↔ (intr_unroute_irq SmpMode.MODE_UP [] (fun i => if i = 33 then [7, 9] else [])
              (IrqTuple.mk 1 0) 7).table ((IrqTuple.mk 1 0).irq + IRQ0) = [])) :=
  ⟨by decide,
   intr_unroute_irq_up_masks_iff_chain_empty [] (fun i => if i = 33 then [7, 9] else [])
     (IrqTuple.mk 1 0) 7 (by decide)⟩

end Arc

namespace Arc

/-- C2 (amended): the acknowledgment step of intr_dispatch branches on
smp_mode, not on ic_type, and is not ic_ack: in UP mode it calls
pic_ack(v - IRQ0) exactly for IRQ0 <= v <= IRQ15, in SMP mode it calls
apic_ack() exactly for v > FAULT31 with v not the spurious vector; in
particular, for a legacy-range vector under the PIC topology, ic_ack
issues pic_ack with the raw vector id, so the two differ. -/
theorem intr_dispatch_ack_not_ic_ack (table : HandlerTable) (state : IntrState)
    (h1 : IRQ0 ≤ state.id) (h2 : state.id ≤ IRQ15) :
    (∀ (t2 : HandlerTable) (s2 : IntrState),
        (intr_dispatch SmpMode.MODE_UP t2 s2).1 =
          (if IRQ0 ≤ s2.id ∧ s2.id ≤ IRQ15 then [AckCall.pic_ack (s2.id - IRQ0)] else []))
  ∧ (∀ (t2 : HandlerTable) (s2 : IntrState),
        (intr_dispatch SmpMode.MODE_SMP t2 s2).1 =
          (if FAULT31 < s2.id ∧ s2.id ≠ SPURIOUS then [AckCall.apic_ack] else []))
  ∧ Except.ok (intr_dispatch SmpMode.MODE_UP table state).1 ≠
      ic_ack ICType.IC_TYPE_PIC state.id := by
  refine ⟨fun t2 s2 => rfl, fun t2 s2 => rfl, ?_⟩
  have hup : (intr_dispatch SmpMode.MODE_UP table state).1 =
      [AckCall.pic_ack (state.id - IRQ0)] := by
    show (if IRQ0 ≤ state.id ∧ state.id ≤ IRQ15
        then [AckCall.pic_ack (state.id - IRQ0)] else []) = _
    rw [if_pos ⟨h1, h2⟩]
  have hic : ic_ack ICType.IC_TYPE_PIC state.id = Except.ok [AckCall.pic_ack state.id] := by
    show Except.ok (if IRQ0 ≤ state.id ∧ state.id ≤ IRQ15
        then [AckCall.pic_ack state.id] else []) = _
    rw [if_pos ⟨h1, h2⟩]
  rw [hup, hic]
  intro heq
  have hlist : [AckCall.pic_ack (state.id - IRQ0)] = [AckCall.pic_ack state.id] :=
    Except.ok.inj heq
  have harg : state.id - IRQ0 = state.id := by
    injection hlist with hhead htail
    injection hhead
  have hI : IRQ0 = 32 := rfl
  omega

/-- C2 witness: the amended characterization instantiated at vector 32 with
a one-entry table. -/
theorem intr_dispatch_ack_not_ic_ack_witness :
    IRQ0 ≤ (IntrState.mk 32).id ∧ (IntrState.mk 32).id ≤ IRQ15 ∧
    ((∀ (t2 : HandlerTable) (s2 : IntrState),
        (intr_dispatch SmpMode.MODE_UP t2 s2).1 =
          (if IRQ0 ≤ s2.id ∧ s2.id ≤ IRQ15 then [AckCall.pic_ack (s2.id - IRQ0)] else []))
    ∧ (∀ (t2 : HandlerTable) (s2 : IntrState),
        (intr_dispatch SmpMode.MODE_SMP t2 s2).1 =
          (if FAULT31 < s2.id ∧ s2.id ≠ SPURIOUS then [AckCall.apic_ack] else []))
    ∧ Except.ok (intr_dispatch SmpMode.MODE_UP (fun _ => [3]) (IntrState.mk 32)).1 ≠
        ic_ack ICType.IC_TYPE_PIC (IntrState.mk 32).id) :=
  ⟨by decide, by decide,
   intr_dispatch_ack_not_ic_ack (fun _ => [3]) (IntrState.mk 32) (by decide) (by decide)⟩

/-- C2 counterexample: at vector 32 in UP mode the dispatcher acknowledges
with pic_ack 0, while ic_ack under the PIC topology acknowledges the same
vector with pic_ack 32 - the backend call arguments differ, so the
claimed equivalence fails. -/
theorem intr_dispatch_ack_vs_ic_ack_counterexample :
    (intr_dispatch SmpMode.MODE_UP (fun _ => [3]) (IntrState.mk 32)).1 =
      [AckCall.pic_ack 0]
  ∧ ic_ack ICType.IC_TYPE_PIC 32 = Except.ok [AckCall.pic_ack 32]
  ∧ AckCall.pic_ack 0 ≠ AckCall.pic_ack 32 := by
  refine ⟨rfl, rfl, by decide⟩

end Arc

namespace Arc

/-- C5 (amended): when the handler is not already in the vector's chain, a
succeeding intr_route_intr followed by intr_unroute_intr for the same
vector and handler restores the whole table, and dispatching the vector
afterwards never invokes that handler. -/
theorem route_then_unroute_restores_chain (mode : SmpMode) (table : HandlerTable)
    (v : Nat) (h : Handler) (hnot : h ∉ table v) :
    (intr_route_intr true table v h).1 = true
  ∧ (∀ i, intr_unroute_intr (intr_route_intr true table v h).2 v h i = table i)
  ∧ (∀ l, (intr_dispatch mode (intr_unroute_intr (intr_route_intr true table v h).2 v h)
        (IntrState.mk v)).2 = Except.ok l → ∀ s, (h, s) ∉ l) := by
  have happly : ∀ (t : HandlerTable) (i : Nat),
      intr_unroute_intr t v h i = (if i = v then eraseFirst (t i) h else t i) :=
    fun t i => rfl
  have hroute : (intr_route_intr true table v h).2 =
      fun i => if i = v then table i ++ [h] else table i := rfl
  have hpt : ∀ i, intr_unroute_intr (intr_route_intr true table v h).2 v h i = table i := by
    intro i
    rw [happly, hroute]
    by_cases hiv : i = v
    · subst hiv
      simp [eraseFirst_append_not_mem (table i) h hnot]
    · simp [hiv]
  refine ⟨rfl, hpt, ?_⟩
  intro l hl s hmem
  have hid : (IntrState.mk v).id = v := rfl
  rw [show (intr_dispatch mode (intr_unroute_intr (intr_route_intr true table v h).2 v h)
      (IntrState.mk v)).2 =
      (if (table v).isEmpty then Except.error "unhandled interrupt"
       else Except.ok ((table v).map (fun x => (x, IntrState.mk v)))) from by
    show (if ((intr_unroute_intr (intr_route_intr true table v h).2 v h)
        (IntrState.mk v).id).isEmpty then _ else Except.ok
          (((intr_unroute_intr (intr_route_intr true table v h).2 v h)
            (IntrState.mk v).id).map _)) = _
    rw [hid, hpt v]] at hl
  by_cases hemp : (table v).isEmpty
  · rw [if_pos hemp] at hl
    exact absurd hl (by simp)
  · rw [if_neg hemp] at hl
    have hleq : l = (table v).map (fun x => (x, IntrState.mk v)) :=
      (Except.ok.inj hl).symm
    subst hleq
    rcases List.mem_map.mp hmem with ⟨a, ha, hax⟩
    have : a = h := congrArg Prod.fst hax
    subst this
    exact hnot ha

/-- C5 witness: the round trip instantiated with prior chain [1] at vector
5 and the fresh handler 0. -/
theorem route_then_unroute_restores_chain_witness :
    ((0 : Handler) ∉ (fun i => if i = 5 then [1] else ([] : List Handler)) 5)
  ∧ ((intr_route_intr true (fun i => if i = 5 then [1] else []) 5 0).1 = true
    ∧ (∀ i, intr_unroute_intr (intr_route_intr true
          (fun i => if i = 5 then [1] else []) 5 0).2 5 0 i =
        (fun i => if i = 5 then [1] else ([] : List Handler)) i)
    ∧ (∀ l, (intr_dispatch SmpMode.MODE_UP (intr_unroute_intr (intr_route_intr true
          (fun i => if i = 5 then [1] else []) 5 0).2 5 0)
        (IntrState.mk 5)).2 = Except.ok l → ∀ s, ((0 : Handler), s) ∉ l)) :=
  ⟨by decide,
   route_then_unroute_restores_chain SmpMode.MODE_UP
     (fun i => if i = 5 then [1] else []) 5 0 (by decide)⟩

/-- C5 counterexample: with prior chain [0, 1] at vector 5, routing handler
0 and then unrouting it yields chain [1, 0], not the prior [0, 1]: the
unroute removes the first matching entry, which is the prior one, so the
round trip does not restore the prior order. -/
theorem route_then_unroute_not_prior_order_counterexample :
    intr_unroute_intr (intr_route_intr true
        (fun i => if i = 5 then [0, 1] else []) 5 0).2 5 0 5 = [1, 0]
  ∧ ([1, 0] : List Handler) ≠ [0, 1] := by
  refine ⟨rfl, by decide⟩

/-- C7 (amended): in multiprocessor mode, unrouting an IRQ that no
registered I/O APIC claims is not fatal and masks no I/O APIC route, but
it still removes the first matching handler from the chain of vector
(irq mod IRQS) + IRQ0; intr_unroute_irq returns void, so no failure is
reported to the caller. -/
theorem intr_unroute_irq_smp_unowned_still_unroutes (ioapics : List Ioapic)
    (table : HandlerTable) (tuple : IrqTuple) (handler : Handler)
    (h : ioapics.all (fun apic => !(ioapicMatches apic tuple.irq)) = true) :
    (intr_unroute_irq SmpMode.MODE_SMP ioapics table tuple handler).ioapic_masks = []
  ∧ (intr_unroute_irq SmpMode.MODE_SMP ioapics table tuple handler).pic_masks = []
  ∧ (∀ i, (intr_unroute_irq SmpMode.MODE_SMP ioapics table tuple handler).table i =
      (if i = tuple.irq % IRQS + IRQ0 then eraseFirst (table i) handler else table i)) := by
  refine ⟨?_, rfl, fun i => rfl⟩
  show (ioapics.filter (fun apic => ioapicMatches apic tuple.irq)).map
      (fun apic => (apic, tuple)) = []
  rw [List.filter_eq_nil_iff.mpr ?_]
  · rfl
  · intro apic hmem
    have := List.all_eq_true.mp h apic hmem
    simpa using this

/-- C7 witness: the amended behaviour instantiated with one registered
I/O APIC covering IRQs 0..14 (per the code's range test) and IRQ 20. -/
theorem intr_unroute_irq_smp_unowned_still_unroutes_witness :
    ([Ioapic.mk 0 16].all (fun apic => !(ioapicMatches apic (IrqTuple.mk 20 0).irq)) = true)
  ∧ ((intr_unroute_irq SmpMode.MODE_SMP [Ioapic.mk 0 16]
        (fun i => if i = 52 then [7] else []) (IrqTuple.mk 20 0) 7).ioapic_masks = []
    ∧ (intr_unroute_irq SmpMode.MODE_SMP [Ioapic.mk 0 16]
        (fun i => if i = 52 then [7] else []) (IrqTuple.mk 20 0) 7).pic_masks = []
    ∧ (∀ i, (intr_unroute_irq SmpMode.MODE_SMP [Ioapic.mk 0 16]
        (fun i => if i = 52 then [7] else []) (IrqTuple.mk 20 0) 7).table i =
        (if i = (IrqTuple.mk 20 0).irq % IRQS + IRQ0
         then eraseFirst ((fun i => if i = 52 then [7] else ([] : List Handler)) i) 7
         else (fun i => if i = 52 then [7] else ([] : List Handler)) i))) :=
  ⟨by decide,
   intr_unroute_irq_smp_unowned_still_unroutes [Ioapic.mk 0 16]
     (fun i => if i = 52 then [7] else []) (IrqTuple.mk 20 0) 7 (by decide)⟩

/-- C7 counterexample: with no I/O APIC registered and the chain for vector
37 (= 5 mod IRQS + IRQ0) holding handler 7, unrouting IRQ 5 in SMP mode
empties that chain - the handler table is mutated although no I/O APIC
owns the IRQ, refuting the claim that the table is left unchanged. -/
theorem intr_unroute_irq_smp_unowned_mutates_counterexample :
    ((fun i => if i = 37 then [7] else ([] : List Handler)) 37 = [7])
  ∧ (intr_unroute_irq SmpMode.MODE_SMP [] (fun i => if i = 37 then [7] else [])
      (IrqTuple.mk 5 0) 7).table 37 = [] := by
  refine ⟨rfl, rfl⟩

/-- C3 (code bug): route.c computes irq_last = irq_base + irqs - 1 but then
tests irq < irq_last, so the descriptor's last IRQ is never claimed. With
one I/O APIC covering 16 IRQs from base 0, IRQ 15 lies in [0, 0 + 16) yet
intr_route_irq in SMP mode matches no I/O APIC: it returns false, routes
nothing in the table, and programs no I/O APIC. -/
theorem intr_route_irq_smp_excludes_last_irq_of_range :
    ioapicMatches (Ioapic.mk 0 16) 15 = false
  ∧ ((Ioapic.mk 0 16).irq_base ≤ 15 ∧ 15 < (Ioapic.mk 0 16).irq_base + (Ioapic.mk 0 16).irqs)
  ∧ (intr_route_irq SmpMode.MODE_SMP [Ioapic.mk 0 16] true (fun _ => [])
      (IrqTuple.mk 15 0) 7).ok = false
  ∧ (intr_route_irq SmpMode.MODE_SMP [Ioapic.mk 0 16] true (fun _ => [])
      (IrqTuple.mk 15 0) 7).ioapic_routes = []
  ∧ (intr_route_irq SmpMode.MODE_SMP [Ioapic.mk 0 16] true (fun _ => [])
      (IrqTuple.mk 15 0) 7).table (15 % IRQS + IRQ0) = [] := by
  refine ⟨by decide, by decide, rfl, rfl, rfl⟩

/-- C4 (code bug): in UP mode intr_route_irq unmasks the PIC line
unconditionally; when the chain-entry allocation fails it still unmasks
IRQ 1 while returning false and leaving the chain for vector 33 empty. -/
theorem intr_route_irq_up_unmasks_despite_alloc_failure :
    (intr_route_irq SmpMode.MODE_UP [] false (fun _ => []) (IrqTuple.mk 1 0) 7).ok = false
  ∧ (intr_route_irq SmpMode.MODE_UP [] false (fun _ => [])
      (IrqTuple.mk 1 0) 7).pic_unmasks = [1]
  ∧ (intr_route_irq SmpMode.MODE_UP [] false (fun _ => [])
      (IrqTuple.mk 1 0) 7).table 33 = [] := by
  refine ⟨rfl, rfl, rfl⟩

end Arc
